import Mathlib

/-!
Shallow embedding of `src/orderbook/src/log.js` (stoxum-lib-extensions):
a hierarchical logger with namespace segments, a derived `": "`-joined
prefix, numeric level dispatch, call-site capture from a stack trace
string, and a swappable process-wide engine.

JavaScript values relevant to each code path are modelled by small
inductive types; fallible JS operations (property access on `null`,
`assert.strictEqual`, `.replace` on `undefined`) return `Except`.
-/

namespace StoxumLog

/-- Error outcomes of the embedded JS operations: `assert.strictEqual`
throwing an `AssertionError`, and property access / method calls on
`null` or `undefined` throwing a `TypeError`. -/
inductive JSError where
  | assertionError
  | typeError
deriving DecidableEq, Repr

/-- The values the `Log` constructor and `sub` can receive at runtime for
the `namespace` argument (`namespace?: string | Array<string>` in the
source's type annotation, but any JS value may arrive). -/
inductive NsArg where
  | undefined
  | jsNull
  | bool (b : Bool)
  | num (n : Int)
  | str (s : String)
  | arr (xs : List String)
deriving DecidableEq, Repr

/-- JS truthiness for `NsArg` values (`if (!namespace)`): `undefined`,
`null`, `false`, `0` and `""` are falsy; every array is truthy. -/
def NsArg.truthy : NsArg → Bool
  | .undefined => false
  | .jsNull => false
  | .bool b => b
  | .num n => n != 0
  | .str s => s != ""
  | .arr _ => true

/-- JS `String(v)` coercion for the non-array values that can reach the
`[String(namespace)]` branch of the constructor. -/
def NsArg.jsString : NsArg → String
  | .undefined => "undefined"
  | .jsNull => "null"
  | .bool true => "true"
  | .bool false => "false"
  | .num n => toString n
  | .str s => s
  | .arr xs => String.intercalate "," xs

/-- JS `Array.prototype.join(sep)` on an array of strings:
`[].join(s) = ""`, `[x].join(s) = x`, otherwise elements interleaved
with `sep`. -/
def jsJoin (sep : String) : List String → String
  | [] => ""
  | [x] => x
  | x :: y :: rest => x ++ sep ++ jsJoin sep (y :: rest)

/-- A `Log` object: `_namespace` (segment list), `_prefix` (derived,
computed in the constructor), `_parent` (set by `_setParent`, absent on
a root logger). -/
inductive Log where
  | mk (ns : List String) (pre : String) (parent : Option Log)
deriving Repr

/-- Field `this._namespace`. -/
def Log._namespace : Log → List String
  | .mk ns _ _ => ns

/-- Field `this._prefix`. -/
def Log._prefix : Log → String
  | .mk _ pre _ => pre

/-- Field `this._parent`. -/
def Log._parent : Log → Option Log
  | .mk _ _ parent => parent

/-- The constructor `function Log(namespace)`: falsy argument gives the
empty segment list, an array is used as-is, anything else is wrapped as
`[String(namespace)]`; then
`this._prefix = this._namespace.concat(['']).join(': ')`. -/
def LogNew (ns : NsArg) : Log :=
  let _namespace : List String :=
    if !ns.truthy then []
    else match ns with
      | .arr xs => xs
      | v => [v.jsString]
  Log.mk _namespace (jsJoin ": " (_namespace ++ [""])) none

/-- `Log.prototype._setParent` (mutates `this._parent`; modelled as
returning the updated object). -/
def Log._setParent : Log → Log → Log
  | .mk ns pre _, parentLogger => .mk ns pre (some parentLogger)

/-- `Log.prototype.sub`: copies `this._namespace`, pushes the argument
only when it is truthy and a string (`namespace && typeof namespace ===
'string'`), builds a new `Log` from the array and sets its parent. -/
def Log.sub (l : Log) (ns : NsArg) : Log :=
  let subNamespace : List String :=
    match ns with
    | .str s => if s ≠ "" then l._namespace ++ [s] else l._namespace
    | _ => l._namespace
  (LogNew (.arr subNamespace))._setParent l

/-- JSON-representable JS values, used for the extra arguments of a
level call and their serialization by the engines. -/
inductive Json where
  | null
  | bool (b : Bool)
  | num (n : Int)
  | str (s : String)
  | arr (xs : List Json)
  | obj (fields : List (String × Json))

/-- JSON string escaping used by `JSON.stringify` (the cases relevant
here: quote, backslash and the common control characters). -/
def jsonEscapeChar (c : Char) : String :=
  if c = '"' then "\\\""
  else if c = '\\' then "\\\\"
  else if c = '\n' then "\\n"
  else if c = '\t' then "\\t"
  else if c = '\r' then "\\r"
  else String.singleton c

/-- A JSON string literal: the escaped characters between double quotes. -/
def jsonQuote (s : String) : String :=
  "\"" ++ String.join (s.data.map jsonEscapeChar) ++ "\""

/-- The indentation produced by `JSON.stringify(v, null, 2)` at nesting
depth `d`: `d` copies of two spaces. -/
def jsonIndent (d : Nat) : String :=
  String.join (List.replicate d "  ")

mutual

/-- `JSON.stringify(v, null, 2)` at nesting depth `d`: primitives render
flat; non-empty arrays and objects open a line per element, indented two
spaces per depth level, with the closing bracket on the parent's
indentation. -/
def jsonStringify (d : Nat) (j : Json) : String :=
  match j with
  | .null => "null"
  | .bool true => "true"
  | .bool false => "false"
  | .num n => toString n
  | .str s => jsonQuote s
  | .arr [] => "[]"
  | .arr (x :: xs) =>
      "[\n" ++ jsonIndent (d + 1) ++ jsonStringifyItems (d + 1) x xs
        ++ "\n" ++ jsonIndent d ++ "]"
  | .obj [] => "\x7b\x7d"
  | .obj (f :: fs) =>
      "\x7b\n" ++ jsonIndent (d + 1) ++ jsonStringifyFields (d + 1) f fs
        ++ "\n" ++ jsonIndent d ++ "\x7d"
termination_by sizeOf j

/-- The comma-and-newline separated members of a serialized array. -/
def jsonStringifyItems (d : Nat) (x : Json) (rest : List Json) : String :=
  match rest with
  | [] => jsonStringify d x
  | y :: ys =>
      jsonStringify d x ++ ",\n" ++ jsonIndent d ++ jsonStringifyItems d y ys
termination_by sizeOf x + sizeOf rest

/-- The comma-and-newline separated members of a serialized object;
each member is `"key": value`. -/
def jsonStringifyFields (d : Nat) (f : String × Json)
    (rest : List (String × Json)) : String :=
  match rest with
  | [] => jsonQuote f.1 ++ ": " ++ jsonStringify d f.2
  | g :: gs =>
      jsonQuote f.1 ++ ": " ++ jsonStringify d f.2 ++ ",\n"
        ++ jsonIndent d ++ jsonStringifyFields d g gs
termination_by sizeOf f + sizeOf rest
decreasing_by
  all_goals obtain ⟨a, b⟩ := f
  all_goals simp
  all_goals omega

end

/-- One element of the argument array handed to the console write: either
a string, or a raw value passed through unserialized (as the
`interactive` engine does on non-legacy consoles). -/
inductive Item where
  | str (s : String)
  | raw (v : Json)

/-- JS `String.prototype.replace(/^\s+/, '')`: strips the leading run of
whitespace characters. -/
def stripLeadingWS (s : String) : String :=
  String.mk (s.data.dropWhile Char.isWhitespace)

/-- Split a character list at every occurrence of `c`; the splitting
character is dropped. `[]` gives one empty piece, matching JS
`''.split(c) === ['']`. -/
def splitOnChar (c : Char) : List Char → List (List Char)
  | [] => [[]]
  | x :: xs =>
      match splitOnChar c xs, decide (x = c) with
      | r, true => [] :: r
      | [], false => [[x]]
      | h :: t, false => (x :: h) :: t

/-- JS `stack.split('\n')`: the lines of the stack text. -/
def jsSplitNl (s : String) : List String :=
  (splitOnChar '\n' s.data).map String.mk

/-- The location computation inside `getLogInfo`:
`(typeof stack === 'string') ? stack.split('\n')[4].replace(/^\s+/, '') : ''`.
A non-string stack (`none`) yields `''`; a string stack is split on
newlines, and if line index 4 is absent, the indexing yields `undefined`
and `.replace` on it throws a `TypeError`. -/
def locationOf (stack : Option String) : Except JSError String :=
  match stack with
  | none => .ok ""
  | some s =>
      match (jsSplitNl s)[4]? with
      | none => .error .typeError
      | some line => .ok (stripLeadingWS line)

/-- `getLogInfo(message, args)`: builds
`['[' + new Date().toISOString() + ']', message, '--', location, '\n'].concat(args)`.
The wall-clock ISO timestamp and the captured stack text are inputs of
the model; a `TypeError` from the location computation propagates. -/
def getLogInfo (ts : String) (stack : Option String) (message : String)
    (args : List Item) : Except JSError (List Item) :=
  (locationOf stack).map fun loc =>
    [Item.str ("[" ++ ts ++ "]"), Item.str message, Item.str "--",
     Item.str loc, Item.str "\n"] ++ args

/-- The three console output streams `logMessage` can write to. -/
inductive Stream where
  | standard
  | warning
  | error
deriving DecidableEq, Repr

/-- `logMessage(logLevel, args)`: levels 1 and 2 go to `console.log`,
level 3 to `console.warn`, level 4 to `console.error`; any other level
falls through the `switch` with no output. -/
def logMessage (logLevel : Nat) (args : List Item) :
    Option (Stream × List Item) :=
  match logLevel with
  | 1 => some (.standard, args)
  | 2 => some (.standard, args)
  | 3 => some (.warning, args)
  | 4 => some (.error, args)
  | _ => none

/-- The call an engine's `logObject` receives from a level method:
`logObject(level, prefixedMessage, extraArgs)`. -/
structure Dispatch where
  level : Nat
  message : String
  args : List Json

/-- The body `Log.makeLevel(level)` returns: copies the arguments,
replaces the first by `this._prefix + args[0]`, and calls
`Log.engine.logObject(level, args[0], args.slice(1))`. Only the local
`args` array is written to, so the logger itself is returned unchanged
alongside the dispatch. -/
def makeLevelCall (level : Nat) (l : Log) (message : String)
    (extra : List Json) : Dispatch × Log :=
  ({ level := level, message := Log._prefix l ++ message, args := extra }, l)

/-- `Log.prototype.debug = Log.makeLevel(1)`. -/
def Log.debug (l : Log) (message : String) (extra : List Json) :
    Dispatch × Log :=
  makeLevelCall 1 l message extra

/-- `Log.prototype.info = Log.makeLevel(2)`. -/
def Log.info (l : Log) (message : String) (extra : List Json) :
    Dispatch × Log :=
  makeLevelCall 2 l message extra

/-- `Log.prototype.warn = Log.makeLevel(3)`. -/
def Log.warn (l : Log) (message : String) (extra : List Json) :
    Dispatch × Log :=
  makeLevelCall 3 l message extra

/-- `Log.prototype.error = Log.makeLevel(4)`. -/
def Log.error (l : Log) (message : String) (extra : List Json) :
    Dispatch × Log :=
  makeLevelCall 4 l message extra

/-- `engines.basic.logObject`: serializes each extra argument with
`JSON.stringify(arg, null, 2)` and hands `getLogInfo(message, args)` to
`logMessage`. The result is the console write performed (stream and
items), `none` when the level matches no `switch` case. -/
def basicLogObject (ts : String) (stack : Option String) (level : Nat)
    (message : String) (args_ : List Json) :
    Except JSError (Option (Stream × List Item)) :=
  let args : List Item := args_.map fun arg => Item.str (jsonStringify 0 arg)
  (getLogInfo ts stack message args).map (logMessage level)

/-- `engines.interactive.logObject`: passes each extra argument through
raw, unless `/MSIE/.test(navigator.userAgent)` holds, in which case it
serializes like `basic`. -/
def interactiveLogObject (msie : Bool) (ts : String) (stack : Option String)
    (level : Nat) (message : String) (args_ : List Json) :
    Except JSError (Option (Stream × List Item)) :=
  let args : List Item := args_.map fun arg =>
    if msie then Item.str (jsonStringify 0 arg) else Item.raw arg
  (getLogInfo ts stack message args).map (logMessage level)

/-- `engines.none.logObject`: accepts everything, performs no write. -/
def noneLogObject (_level : Nat) (_message : String) (_args : List Json) :
    Except JSError (Option (Stream × List Item)) :=
  .ok none

/-- A level call on `l` dispatched through the `basic` engine: the level
method prepends the prefix, the engine serializes and writes. -/
def runLevelBasic (ts : String) (stack : Option String) (level : Nat)
    (l : Log) (message : String) (extra : List Json) :
    Except JSError (Option (Stream × List Item)) :=
  let d := (makeLevelCall level l message extra).1
  basicLogObject ts stack d.level d.message d.args

/-- JS values as seen by `Log.setEngine`'s validation: what matters is
the `typeof` tag and, for objects, the properties (looked up for
`engine.logObject`). -/
inductive JSValue where
  | jsNull
  | undefined
  | bool (b : Bool)
  | num (n : Int)
  | str (s : String)
  | sym
  | func
  | obj (props : List (String × JSValue))

/-- JS `typeof`: note `typeof null === 'object'`. -/
def jsTypeof : JSValue → String
  | .jsNull => "object"
  | .undefined => "undefined"
  | .bool _ => "boolean"
  | .num _ => "number"
  | .str _ => "string"
  | .sym => "symbol"
  | .func => "function"
  | .obj _ => "object"

/-- The non-null primitive values (`undefined`, booleans, numbers,
strings, symbols). -/
def JSValue.isPrimitive : JSValue → Bool
  | .undefined => true
  | .bool _ => true
  | .num _ => true
  | .str _ => true
  | .sym => true
  | _ => false

/-- JS property access `v[k]`: throws a `TypeError` on `null` and
`undefined`; on an object returns the named property or `undefined`; on
other values returns `undefined`. -/
def getProp (v : JSValue) (k : String) : Except JSError JSValue :=
  match v with
  | .jsNull => .error .typeError
  | .undefined => .error .typeError
  | .obj props =>
      match props.lookup k with
      | some w => .ok w
      | none => .ok .undefined
  | _ => .ok .undefined

/-- `Log.setEngine(engine)`: runs
`assert.strictEqual(typeof engine, 'object')`, then
`assert.strictEqual(typeof engine.logObject, 'function')` (the property
access itself throws on `null`), then assigns `Log.engine = engine`.
Returns the new value of `Log.engine` on success. -/
def setEngine (engine : JSValue) : Except JSError JSValue :=
  if jsTypeof engine ≠ "object" then .error .assertionError
  else
    match getProp engine "logObject" with
    | .error e => .error e
    | .ok lo =>
        if jsTypeof lo ≠ "function" then .error .assertionError
        else .ok engine

/-- The mutable class-level slot `Log.engine` (process-wide state). -/
structure LogState where
  engine : JSValue

/-- The observable effect of a `setEngine` call on `Log.engine`: on any
thrown error the assignment was never reached, so the state is
unchanged. -/
def applySetEngine (st : LogState) (e : JSValue) : LogState :=
  match setEngine e with
  | .ok v => ⟨v⟩
  | .error _ => st

/-- `Log.getEngine`: returns `Log.engine`. -/
def getEngine (st : LogState) : JSValue :=
  st.engine

/-- `Log.prototype.getEngine`: the source assigns the very same function
to both names (`Log.getEngine = Log.prototype.getEngine = function ...`);
its body reads `Log.engine` and ignores `this`. -/
def protoGetEngine (_self : Log) (st : LogState) : JSValue :=
  getEngine st

/-- `Log.prototype.setEngine`: the same function object as
`Log.setEngine`; its body writes `Log.engine` and ignores `this`. -/
def protoSetEngine (_self : Log) (engine : JSValue) :
    Except JSError JSValue :=
  setEngine engine

/-- State effect of `Log.prototype.setEngine` called on an instance. -/
def protoApplySetEngine (_self : Log) (st : LogState) (e : JSValue) :
    LogState :=
  applySetEngine st e

/-! ## Theorems -/

/-- Joining a list with a trailing extra `""` element appends exactly one
trailing separator, provided the list is non-empty. -/
lemma jsJoin_append_empty (sep : String) :
    ∀ S : List String, S ≠ [] → jsJoin sep (S ++ [""]) = jsJoin sep S ++ sep
  | [], h => absurd rfl h
  | [x], _ => by simp [jsJoin]
  | x :: y :: rest, _ => by
      have ih := jsJoin_append_empty sep (y :: rest) (by simp)
      calc jsJoin sep ((x :: y :: rest) ++ [""])
          = x ++ sep ++ jsJoin sep ((y :: rest) ++ [""]) := rfl
        _ = x ++ sep ++ (jsJoin sep (y :: rest) ++ sep) := by rw [ih]
        _ = x ++ sep ++ jsJoin sep (y :: rest) ++ sep :=
            (String.append_assoc _ _ _).symm
        _ = jsJoin sep (x :: y :: rest) ++ sep := rfl

/-- C1: a Logger built from segment list `S` has prefix equal to `S`
joined with `": "` plus one trailing `": "` when `S` is non-empty, and
prefix `""` when `S` is empty. -/
theorem C1_prefix_is_join_with_trailing_sep :
    (∀ S : List String, S ≠ [] →
      Log._prefix (LogNew (.arr S)) = jsJoin ": " S ++ ": ")
    ∧ Log._prefix (LogNew (.arr [])) = "" := by
  refine ⟨fun S hS => ?_, rfl⟩
  simp only [LogNew, NsArg.truthy, Bool.not_true, Log._prefix]
  exact jsJoin_append_empty ": " S hS

/-- Witness for C1 at `S = ["server", "http"]`. -/
theorem C1_prefix_witness :
    (["server", "http"] : List String) ≠ []
    ∧ Log._prefix (LogNew (.arr ["server", "http"]))
        = jsJoin ": " ["server", "http"] ++ ": " :=
  ⟨by decide, C1_prefix_is_join_with_trailing_sep.1 ["server", "http"] (by decide)⟩

/-- C2 counterexample: `sub` with the empty string appends nothing
(`namespace && ...` is falsy for `""`), so for the root logger `L` and
`n = ""`, `L.sub(n)._namespace ≠ L._namespace ++ [n]`. -/
theorem C2_sub_counterexample :
    ((LogNew .undefined).sub (.str ""))._namespace
      ≠ (LogNew .undefined)._namespace ++ [""] := by
  decide

/-- C2 amended: for every Logger `L` and non-empty strings `n`, `m`,
`sub` appends exactly one segment and nesting composes, and the
`sub('net').sub('tcp')` logger prepends `"net: tcp: "` directly onto a
logged message. -/
theorem C2_sub_appends_and_composes (L : Log) (n m : String)
    (hn : n ≠ "") (hm : m ≠ "") :
    (L.sub (.str n))._namespace = L._namespace ++ [n]
    ∧ ((L.sub (.str n)).sub (.str m))._namespace = L._namespace ++ [n, m]
    ∧ (makeLevelCall 2 (((LogNew .undefined).sub (.str "net")).sub (.str "tcp"))
        "connected" []).1.message = "net: tcp: connected" := by
  refine ⟨?_, ?_, by decide⟩
  · simp [Log.sub, LogNew, Log._setParent, Log._namespace, NsArg.truthy, hn]
  · simp [Log.sub, LogNew, Log._setParent, Log._namespace, NsArg.truthy, hn, hm]

/-- Witness for C2's amended theorem at the root logger with
`n = "net"`, `m = "tcp"`. -/
theorem C2_sub_witness :
    ("net" : String) ≠ ""
    ∧ ("tcp" : String) ≠ ""
    ∧ ((LogNew .undefined).sub (.str "net"))._namespace
        = (LogNew .undefined)._namespace ++ ["net"] :=
  ⟨by decide, by decide,
    (C2_sub_appends_and_composes (LogNew .undefined) "net" "tcp"
      (by decide) (by decide)).1⟩

/-- C6 counterexample: constructing with the empty string hits the falsy
branch, so the segment sequence is `[]`, not `[""]`. -/
theorem C6_constructor_counterexample :
    (LogNew (.str ""))._namespace ≠ [""] := by
  decide

/-- C6 amended: a non-empty string is wrapped into a one-element
sequence, an absent argument yields the empty sequence, and a sequence
argument is used as-is. -/
theorem C6_constructor_segments (s : String) (hs : s ≠ "") :
    (LogNew (.str s))._namespace = [s]
    ∧ (LogNew .undefined)._namespace = []
    ∧ ∀ xs : List String, (LogNew (.arr xs))._namespace = xs := by
  refine ⟨?_, rfl, fun xs => rfl⟩
  simp [LogNew, Log._namespace, NsArg.truthy, NsArg.jsString, hs]

/-- Witness for C6's amended theorem at `s = "server"`. -/
theorem C6_constructor_witness :
    ("server" : String) ≠ ""
    ∧ (LogNew (.str "server"))._namespace = ["server"] :=
  ⟨by decide, (C6_constructor_segments "server" (by decide)).1⟩

/-- C10: every falsy constructor argument (`""`, `0`, `undefined`, ...)
yields the empty segment sequence, prefix `""`, and the same Logger
value as no-argument construction; non-empty strings wrap into a
one-element sequence, and truthy non-string non-array values are
coerced with `String()` before wrapping. -/
theorem C10_falsy_constructor_args :
    (∀ v : NsArg, v.truthy = false →
      (LogNew v)._namespace = [] ∧ Log._prefix (LogNew v) = ""
        ∧ LogNew v = LogNew .undefined)
    ∧ (∀ s : String, s ≠ "" → (LogNew (.str s))._namespace = [s])
    ∧ (∀ n : Int, n ≠ 0 → (LogNew (.num n))._namespace = [toString n])
    ∧ (LogNew (.bool true))._namespace = ["true"] := by
  refine ⟨fun v hv => ?_, fun s hs => ?_, fun n hn => ?_, rfl⟩
  · cases v <;>
      simp_all [LogNew, NsArg.truthy, NsArg.jsString, Log._namespace,
        Log._prefix, jsJoin]
  · simp [LogNew, Log._namespace, NsArg.truthy, NsArg.jsString, hs]
  · simp [LogNew, Log._namespace, NsArg.truthy, NsArg.jsString, hn]

/-- Witness for C10 at `v = .str ""` (falsy) and `n = 7` (truthy
number). -/
theorem C10_falsy_constructor_witness :
    (NsArg.str "").truthy = false
    ∧ ((LogNew (.str ""))._namespace = [] ∧ Log._prefix (LogNew (.str "")) = ""
        ∧ LogNew (.str "") = LogNew .undefined)
    ∧ ((7 : Int) ≠ 0 ∧ (LogNew (.num 7))._namespace = [toString (7 : Int)]) :=
  ⟨by decide, C10_falsy_constructor_args.1 (.str "") (by decide),
    by decide, C10_falsy_constructor_args.2.2.1 7 (by decide)⟩

/-- On an object argument, `setEngine` succeeds exactly when the
`logObject` property (or `undefined` when absent) has `typeof`
`'function'`. -/
lemma setEngine_obj (props : List (String × JSValue)) :
    setEngine (.obj props) =
      if jsTypeof ((props.lookup "logObject").getD .undefined) = "function"
      then .ok (.obj props)
      else .error .assertionError := by
  cases hl : props.lookup "logObject" with
  | none => simp [setEngine, getProp, hl, jsTypeof]
  | some w =>
      by_cases hw : jsTypeof w = "function" <;>
        simp [setEngine, getProp, hl, jsTypeof, hw]

/-- C3: `setEngine` raises for `null` (the `typeof` assert passes but
the `logObject` property access throws a `TypeError`), raises an
`AssertionError` for every primitive and for every object without a
callable (`typeof === 'function'`) `logObject` member — in all of these
cases `Log.engine` is left unchanged — and succeeds for every object
with a callable `logObject` member, making it the active engine. -/
theorem C3_setEngine_contract :
    (setEngine .jsNull = .error .typeError)
    ∧ (∀ e : JSValue, e.isPrimitive = true →
        setEngine e = .error .assertionError)
    ∧ (∀ props : List (String × JSValue),
        jsTypeof ((props.lookup "logObject").getD .undefined) ≠ "function" →
          setEngine (.obj props) = .error .assertionError)
    ∧ (∀ props : List (String × JSValue),
        jsTypeof ((props.lookup "logObject").getD .undefined) = "function" →
          setEngine (.obj props) = .ok (.obj props)
          ∧ ∀ st, applySetEngine st (.obj props) = ⟨.obj props⟩)
    ∧ (∀ (st : LogState) (e : JSValue) (err : JSError),
        setEngine e = .error err → applySetEngine st e = st) := by
  refine ⟨rfl, fun e he => ?_, fun props hp => ?_, fun props hp => ?_,
    fun st e err he => ?_⟩
  · cases e <;> simp_all [JSValue.isPrimitive, setEngine, jsTypeof]
  · rw [setEngine_obj, if_neg hp]
  · have h1 : setEngine (.obj props) = .ok (.obj props) := by
      rw [setEngine_obj, if_pos hp]
    exact ⟨h1, fun st => by simp [applySetEngine, h1]⟩
  · simp [applySetEngine, he]

/-- Witness for C3 at `e = true` (primitive), `props = []` (object
without `logObject`) and `props = [("logObject", func)]` (valid
engine). -/
theorem C3_setEngine_witness :
    ((JSValue.bool true).isPrimitive = true
      ∧ setEngine (.bool true) = .error .assertionError)
    ∧ (jsTypeof ((([] : List (String × JSValue)).lookup "logObject").getD
          .undefined) ≠ "function"
      ∧ setEngine (.obj []) = .error .assertionError)
    ∧ (jsTypeof (([("logObject", JSValue.func)].lookup "logObject").getD
          .undefined) = "function"
      ∧ setEngine (.obj [("logObject", .func)]) = .ok (.obj [("logObject", .func)])) :=
  ⟨⟨rfl, C3_setEngine_contract.2.1 (.bool true) rfl⟩,
   ⟨by decide, C3_setEngine_contract.2.2.1 [] (by decide)⟩,
   ⟨rfl, (C3_setEngine_contract.2.2.2.1 [("logObject", .func)] rfl).1⟩⟩

/-- C4: the level methods carry the fixed numbers debug = 1, info = 2,
warn = 3, error = 4 into the dispatch, and `logMessage` routes levels 1
and 2 to the standard stream (`console.log`), level 3 to the warning
stream (`console.warn`) and level 4 to the error stream
(`console.error`). -/
theorem C4_level_numbers_and_routing :
    (∀ (l : Log) (msg : String) (ex : List Json),
      (Log.debug l msg ex).1.level = 1
      ∧ (Log.info l msg ex).1.level = 2
      ∧ (Log.warn l msg ex).1.level = 3
      ∧ (Log.error l msg ex).1.level = 4)
    ∧ (∀ items : List Item,
      logMessage 1 items = some (.standard, items)
      ∧ logMessage 2 items = some (.standard, items)
      ∧ logMessage 3 items = some (.warning, items)
      ∧ logMessage 4 items = some (.error, items)) :=
  ⟨fun _ _ _ => ⟨rfl, rfl, rfl, rfl⟩, fun _ => ⟨rfl, rfl, rfl, rfl⟩⟩

/-- C5 counterexample: when the captured stack text is a string with
fewer than five lines (here the single line `"Error"`), the level call
does not substitute an empty location — `stack.split('\n')[4]` is
`undefined` and `.replace` on it throws a `TypeError`, so the call does
not complete normally. -/
theorem C5_location_counterexample :
    locationOf (some "Error") = .error .typeError
    ∧ runLevelBasic "T" (some "Error") 2 (LogNew .undefined) "m" []
        = .error .typeError :=
  ⟨rfl, rfl⟩

/-- C5 amended: when stack capture is unsupported (the stack is not a
string) the location component is the empty string and the call
completes normally; when the stack text is present its fifth line,
stripped of leading whitespace, is the location — but when that line
is absent the level call raises a `TypeError` instead of substituting
the empty string. -/
theorem C5_location_best_effort :
    (∀ (ts msg : String) (args : List Item),
      getLogInfo ts none msg args =
        .ok ([Item.str ("[" ++ ts ++ "]"), .str msg, .str "--", .str "",
          .str "\n"] ++ args))
    ∧ (∀ s : String, (jsSplitNl s)[4]? = none →
        locationOf (some s) = .error .typeError
        ∧ ∀ (ts msg : String) (args : List Item),
            getLogInfo ts (some s) msg args = .error .typeError)
    ∧ (∀ s line : String, (jsSplitNl s)[4]? = some line →
        locationOf (some s) = .ok (stripLeadingWS line)) := by
  refine ⟨fun ts msg args => rfl,
    fun s hs => ⟨?_, fun ts msg args => ?_⟩, fun s line hs => ?_⟩
  · simp [locationOf, hs]
  · simp [getLogInfo, locationOf, hs, Except.map]
  · simp [locationOf, hs]

/-- Witness for C5's amended theorem at the one-line stack `"Error"`
and at a five-line stack. -/
theorem C5_location_witness :
    ((jsSplitNl "Error")[4]? = none
      ∧ locationOf (some "Error") = .error .typeError)
    ∧ ((jsSplitNl "a\nb\nc\nd\n  at f (x.js:1)")[4]?
          = some "  at f (x.js:1)"
      ∧ locationOf (some "a\nb\nc\nd\n  at f (x.js:1)")
          = .ok (stripLeadingWS "  at f (x.js:1)")) :=
  ⟨⟨by decide, (C5_location_best_effort.2.1 "Error" (by decide)).1⟩,
   ⟨by decide,
    C5_location_best_effort.2.2 "a\nb\nc\nd\n  at f (x.js:1)"
      "  at f (x.js:1)" (by decide)⟩⟩

/-- Evaluation of `JSON.stringify({code: 7}, null, 2)`. -/
lemma jsonStringify_code7 :
    jsonStringify 0 (.obj [("code", .num 7)]) = "\x7b\n  \"code\": 7\n\x7d" := by
  simp only [jsonStringify, jsonStringifyFields, jsonQuote, jsonEscapeChar,
    jsonIndent, String.join]
  decide

/-- C7: through the `basic` engine every extra value is emitted as the
string `JSON.stringify(value, null, 2)` — never passed raw — and the
item sequence starts with the bracketed timestamp; in particular
`.error('failed', {code: 7})` goes to the error stream with the
serialized object. -/
theorem C7_basic_engine_serializes :
    (∀ (ts : String) (lvl : Nat) (msg : String) (extras : List Json)
        (l : Log),
      runLevelBasic ts none lvl l msg extras =
        .ok (logMessage lvl
          ([Item.str ("[" ++ ts ++ "]"), .str (Log._prefix l ++ msg),
            .str "--", .str "", .str "\n"]
            ++ extras.map fun a => Item.str (jsonStringify 0 a))))
    ∧ (∀ (ts : String) (l : Log),
      runLevelBasic ts none 4 l "failed" [.obj [("code", .num 7)]] =
        .ok (some (.error,
          [Item.str ("[" ++ ts ++ "]"), .str (Log._prefix l ++ "failed"),
           .str "--", .str "", .str "\n",
           .str "\x7b\n  \"code\": 7\n\x7d"]))) := by
  have hgen : ∀ (ts : String) (lvl : Nat) (msg : String) (extras : List Json)
      (l : Log),
      runLevelBasic ts none lvl l msg extras =
        .ok (logMessage lvl
          ([Item.str ("[" ++ ts ++ "]"), .str (Log._prefix l ++ msg),
            .str "--", .str "", .str "\n"]
            ++ extras.map fun a => Item.str (jsonStringify 0 a))) :=
    fun _ _ _ _ _ => rfl
  refine ⟨hgen, fun ts l => ?_⟩
  rw [hgen ts 4 "failed" [.obj [("code", .num 7)]] l]
  simp [jsonStringify_code7, logMessage]

/-- C8: the class-level and instance-level engine accessors are the
same operations on the same process-wide slot: the instance forms
ignore `this`, and an engine set through any instance is the one read
back through any other instance or through the class. -/
theorem C8_engine_forms_identical :
    (∀ (L : Log) (st : LogState), protoGetEngine L st = getEngine st)
    ∧ (∀ (L : Log) (e : JSValue), protoSetEngine L e = setEngine e)
    ∧ (∀ (L : Log) (st : LogState) (e : JSValue),
        protoApplySetEngine L st e = applySetEngine st e)
    ∧ (∀ (L L' : Log) (st : LogState) (e v : JSValue),
        setEngine e = .ok v →
          protoGetEngine L' (protoApplySetEngine L st e) = v
          ∧ getEngine (applySetEngine st e) = v) := by
  refine ⟨fun _ _ => rfl, fun _ _ => rfl, fun _ _ _ => rfl,
    fun L L' st e v hv => ?_⟩
  constructor <;>
    simp [protoGetEngine, getEngine, protoApplySetEngine, applySetEngine, hv]

/-- Witness for C8 at a valid engine object and two distinct logger
instances. -/
theorem C8_engine_forms_witness :
    setEngine (.obj [("logObject", JSValue.func)])
        = .ok (.obj [("logObject", .func)])
    ∧ protoGetEngine (LogNew .undefined)
        (protoApplySetEngine (LogNew (.str "a")) ⟨.undefined⟩
          (.obj [("logObject", .func)]))
        = .obj [("logObject", .func)] :=
  ⟨rfl,
    (C8_engine_forms_identical.2.2.2 (LogNew (.str "a")) (LogNew .undefined)
      ⟨.undefined⟩ (.obj [("logObject", .func)]) (.obj [("logObject", .func)])
      rfl).1⟩

/-- C9: a level call assigns only to its local argument copy: the
logger comes back with identical segments and prefix, the dispatched
message is always prefix-plus-message, and an immediately repeated call
dispatches identically. -/
theorem C9_level_call_preserves_logger :
    ∀ (lvl : Nat) (l : Log) (msg : String) (ex : List Json),
      (makeLevelCall lvl l msg ex).2 = l
      ∧ ((makeLevelCall lvl l msg ex).2)._namespace = l._namespace
      ∧ Log._prefix ((makeLevelCall lvl l msg ex).2) = Log._prefix l
      ∧ (makeLevelCall lvl l msg ex).1.message = Log._prefix l ++ msg
      ∧ (makeLevelCall lvl ((makeLevelCall lvl l msg ex).2) msg ex).1
          = (makeLevelCall lvl l msg ex).1
      ∧ (Log.debug l msg ex).2 = l ∧ (Log.info l msg ex).2 = l
      ∧ (Log.warn l msg ex).2 = l ∧ (Log.error l msg ex).2 = l :=
  fun _ _ _ _ => ⟨rfl, rfl, rfl, rfl, rfl, rfl, rfl, rfl, rfl⟩

end StoxumLog
